import Mathlib

/-!
Verification of the parent-teacher-meeting recommendation engine
(`src/functions/ai_talking_points.py`, class `TalkingPointsGenerator`).

The Python engine is a pure function of a nested student-profile dict.
We embed it shallowly: dict sections become structures whose fields are
`Option`-typed (a `None` field models an absent key; `Option.getD`
models Python's `dict.get(key, default)`); Python floats appearing in
the profile (GPA, scores, attendance rate) are modelled as rationals,
which is exact for the threshold comparisons the engine performs;
Python's raw `d['key']` subscripts on the three required identity
fields, which raise `KeyError` when absent, are modelled as a typed
error in `Except`.
-/

namespace Sahayak

/-- A value stored in a talking point's `supporting_data` dict
(`Dict[str, Any]` in the source; the engine only ever stores numbers,
strings, and lists of strings there). -/
inductive SDValue
| num (q : ℚ)
| str (s : String)
| strList (l : List String)
deriving DecidableEq, Repr

/-- The closed category set of `TalkingPoint.category`. -/
inductive Category
| academic
| behavioral
| social
| goals
| recommendations
deriving DecidableEq, Repr

/-- The closed priority set of `TalkingPoint.priority`. -/
inductive Priority
| high
| medium
| low
deriving DecidableEq, Repr

/-- The `TalkingPoint` dataclass of the source. -/
structure TalkingPoint where
  category : Category
  priority : Priority
  title : String
  content : String
  supporting_data : List (String × SDValue)
  action_required : Bool := false
deriving DecidableEq, Repr

/-- One entry of the `subjects` mapping in `academicProfile`. -/
structure SubjectData where
  currentGrade : Option String := none
  averageScore : Option ℚ := none
  trend : Option String := none
deriving DecidableEq, Repr

/-- `academicProfile` section.  `subjects` is a dict iterated in its
natural (insertion) order, hence an association list here. -/
structure AcademicProfile where
  currentGPA : Option ℚ := none
  subjects : Option (List (String × SubjectData)) := none
  strengths : Option (List String) := none
  areasForImprovement : Option (List String) := none
  learningStyle : Option String := none
deriving DecidableEq, Repr

/-- The empty dict `{}` used as default for a missing section. -/
def AcademicProfile.empty : AcademicProfile := {}

structure Participation where
  level : Option String := none
deriving DecidableEq, Repr

def Participation.empty : Participation := {}

structure SocialSkills where
  peerInteraction : Option String := none
  teamwork : Option String := none
deriving DecidableEq, Repr

def SocialSkills.empty : SocialSkills := {}

structure Attendance where
  attendanceRate : Option ℚ := none
  tardyCount : Option Int := none
deriving DecidableEq, Repr

def Attendance.empty : Attendance := {}

/-- `behavioralProfile` section. -/
structure BehavioralProfile where
  participation : Option Participation := none
  socialSkills : Option SocialSkills := none
  attendance : Option Attendance := none
deriving DecidableEq, Repr

def BehavioralProfile.empty : BehavioralProfile := {}

/-- `extracurricular` section. -/
structure Extracurricular where
  sports : Option (List String) := none
  clubs : Option (List String) := none
  achievements : Option (List String) := none
  volunteerHours : Option Int := none
deriving DecidableEq, Repr

def Extracurricular.empty : Extracurricular := {}

/-- `parentEngagement` section. -/
structure ParentEngagement where
  communicationFrequency : Option String := none
  homeworkSupport : Option String := none
  concernsRaised : Option (List String) := none
deriving DecidableEq, Repr

def ParentEngagement.empty : ParentEngagement := {}

/-- `goals` section. -/
structure GoalsProfile where
  shortTerm : Option (List String) := none
  longTerm : Option (List String) := none
  parentGoals : Option (List String) := none
deriving DecidableEq, Repr

def GoalsProfile.empty : GoalsProfile := {}

/-- `teacherNotes` section. -/
structure TeacherNotes where
  recommendedActions : Option (List String) := none
  motivationLevel : Option String := none
deriving DecidableEq, Repr

def TeacherNotes.empty : TeacherNotes := {}

/-- `personalInfo` section.  `firstName`, `lastName`, `grade` are the
three required identity fields (accessed with raw subscripts in the
source); they are still `Option`-typed here because the input dict may
lack them, which is exactly the error case of claim C3. -/
structure PersonalInfo where
  firstName : Option String := none
  lastName : Option String := none
  grade : Option String := none
  classSection : Option String := none
deriving DecidableEq, Repr

def PersonalInfo.empty : PersonalInfo := {}

/-- The full student-profile input record. -/
structure StudentProfile where
  personalInfo : Option PersonalInfo := none
  academicProfile : Option AcademicProfile := none
  behavioralProfile : Option BehavioralProfile := none
  extracurricular : Option Extracurricular := none
  parentEngagement : Option ParentEngagement := none
  goals : Option GoalsProfile := none
  teacherNotes : Option TeacherNotes := none
deriving DecidableEq, Repr

/-- One row of `grade_level_expectations`. -/
structure GradeExpectations where
  gpa_excellent : ℚ
  gpa_good : ℚ
  attendance_good : ℚ
deriving DecidableEq, Repr

/-- The grade-5 row of the table (used both as the `"5"` entry and as
the fallback for unknown grades, mirroring
`self.grade_level_expectations.get(grade, self.grade_level_expectations["5"])`). -/
def gradeFiveExpectations : GradeExpectations := ⟨3.7, 3.2, 0.96⟩

/-- `self.grade_level_expectations` from `TalkingPointsGenerator.__init__`. -/
def grade_level_expectations : List (String × GradeExpectations) :=
  [("3", ⟨3.5, 3.0, 0.95⟩),
   ("4", ⟨3.6, 3.1, 0.95⟩),
   ("5", gradeFiveExpectations),
   ("6", ⟨3.8, 3.3, 0.96⟩)]

/-- Table lookup with fallback to the grade-5 entry. -/
def expectationsFor (grade : String) : GradeExpectations :=
  (grade_level_expectations.lookup grade).getD gradeFiveExpectations

/-- Left-pad a digit string with zeros to width `w`. -/
def padZeros (w : Nat) (s : String) : String :=
  String.mk (List.replicate (w - s.length) '0') ++ s

/-- Fixed-point decimal rendering of a rational, modelling the
source's `f"{x:.2f}"` / `f"{x:.1f}"` float formatting (rounding of an
exact half is half-up here; no claim depends on tie rounding). -/
def fmtFixed (digits : Nat) (q : ℚ) : String :=
  let scaled : Int := (q * (10 : ℚ) ^ digits + 1/2).floor
  let sign := if scaled < 0 then "-" else ""
  let n := scaled.natAbs
  let base := 10 ^ digits
  if digits = 0 then sign ++ toString n
  else sign ++ toString (n / base) ++ "." ++ padZeros digits (toString (n % base))

/-- The source's `f"{rate:.1%}"` percent formatting. -/
def fmtPct (q : ℚ) : String := fmtFixed 1 (q * 100) ++ "%"

/-- ASCII model of Python's `str.title()` (first letter of each
alphabetic run uppercased, the rest lowercased). -/
def pyTitleAux : Bool → List Char → List Char
  | _, [] => []
  | prevAlpha, c :: cs =>
    (if prevAlpha then c.toLower else c.toUpper) :: pyTitleAux c.isAlpha cs

/-- Python's `subject.title()`. -/
def pyTitle (s : String) : String := String.mk (pyTitleAux false s.data)

/-- The body of the per-subject loop of `analyze_academic_performance`
(zero or one point per `subjects` entry; contents do not mention the
student's name). -/
def subjectPoint (sdata : String × SubjectData) : List TalkingPoint :=
  let subject := sdata.1
  let trend := sdata.2.trend.getD "stable"
  let score := sdata.2.averageScore.getD 0
  let grade_letter := sdata.2.currentGrade.getD ""
  if trend = "improving" then
    [{ category := .academic, priority := .medium,
       title := "Improvement in " ++ pyTitle subject,
       content := "Great progress in " ++ subject
         ++ " with an improving trend. Current grade: " ++ grade_letter
         ++ " (" ++ fmtFixed 1 score ++ "%)",
       supporting_data := [("subject", .str subject), ("trend", .str trend),
                           ("score", .num score), ("grade", .str grade_letter)],
       action_required := false }]
  else if trend = "declining" ∧ score < 75 then
    [{ category := .academic, priority := .high,
       title := "Concerns in " ++ pyTitle subject,
       content := pyTitle subject
         ++ " performance shows declining trend. Current grade: " ++ grade_letter
         ++ " (" ++ fmtFixed 1 score ++ "%). Let's discuss intervention strategies.",
       supporting_data := [("subject", .str subject), ("trend", .str trend),
                           ("score", .num score), ("grade", .str grade_letter)],
       action_required := true }]
  else []

/-- `analyze_academic_performance`, as a pure function of the profile.
The source reads `student_data['personalInfo']['firstName']` with raw
subscripts inside every GPA branch (and in the strengths / growth
points); `firstName` is passed in already extracted, the `Except`
wrapper `generate_talking_points` below surfaces its absence. -/
def analyze_academic_performance (firstName : String) (sd : StudentProfile) :
    List TalkingPoint :=
  let academic_profile := sd.academicProfile.getD .empty
  let grade := (sd.personalInfo.getD .empty).grade.getD "5"
  let expectations := expectationsFor grade
  let current_gpa := academic_profile.currentGPA.getD 0
  let gpaPoints : List TalkingPoint :=
    if expectations.gpa_excellent ≤ current_gpa then
      [{ category := .academic, priority := .high,
         title := "Excellent Academic Performance",
         content := firstName ++ " is performing exceptionally well with a GPA of "
           ++ fmtFixed 2 current_gpa ++ ", which exceeds grade-level expectations.",
         supporting_data := [("gpa", .num current_gpa),
                             ("expectation", .num expectations.gpa_excellent)],
         action_required := false }]
    else if expectations.gpa_good ≤ current_gpa then
      [{ category := .academic, priority := .medium,
         title := "Solid Academic Performance",
         content := firstName ++ " maintains good academic standing with a GPA of "
           ++ fmtFixed 2 current_gpa ++ ".",
         supporting_data := [("gpa", .num current_gpa),
                             ("expectation", .num expectations.gpa_good)],
         action_required := false }]
    else
      [{ category := .academic, priority := .high,
         title := "Academic Support Needed",
         content := firstName ++ "'s GPA of " ++ fmtFixed 2 current_gpa
           ++ " indicates need for additional academic support.",
         supporting_data := [("gpa", .num current_gpa),
                             ("expectation", .num expectations.gpa_good)],
         action_required := true }]
  let subjectPoints : List TalkingPoint :=
    (academic_profile.subjects.getD []).flatMap subjectPoint
  let strengths := academic_profile.strengths.getD []
  let strengthsPoints : List TalkingPoint :=
    if strengths.isEmpty then [] else
      [{ category := .academic, priority := .medium,
         title := "Academic Strengths",
         content := firstName ++ " excels in: " ++ String.intercalate ", " strengths
           ++ ". We can leverage these strengths in challenging areas.",
         supporting_data := [("strengths", .strList strengths)],
         action_required := false }]
  let areas_for_improvement := academic_profile.areasForImprovement.getD []
  let areasPoints : List TalkingPoint :=
    if areas_for_improvement.isEmpty then [] else
      [{ category := .academic, priority := .medium,
         title := "Growth Opportunities",
         content := "Areas where " ++ firstName ++ " can grow: "
           ++ String.intercalate ", " areas_for_improvement,
         supporting_data := [("areas_for_improvement", .strList areas_for_improvement)],
         action_required := true }]
  gpaPoints ++ subjectPoints ++ strengthsPoints ++ areasPoints

/-- `analyze_behavioral_profile`, as a pure function of the profile. -/
def analyze_behavioral_profile (firstName : String) (sd : StudentProfile) :
    List TalkingPoint :=
  let behavioral_profile := sd.behavioralProfile.getD .empty
  let participation_level := (behavioral_profile.participation.getD .empty).level.getD "medium"
  let participationPoints : List TalkingPoint :=
    if participation_level = "high" then
      [{ category := .behavioral, priority := .medium,
         title := "Excellent Class Participation",
         content := firstName ++ " demonstrates excellent class participation and engagement.",
         supporting_data := [("participation_level", .str participation_level)],
         action_required := false }]
    else if participation_level = "low" then
      [{ category := .behavioral, priority := .medium,
         title := "Encouraging Participation",
         content := "We're working on encouraging " ++ firstName
           ++ " to participate more actively in class discussions.",
         supporting_data := [("participation_level", .str participation_level)],
         action_required := true }]
    else []
  let social_skills := behavioral_profile.socialSkills.getD .empty
  let peer_interaction := social_skills.peerInteraction.getD "good"
  let teamwork := social_skills.teamwork.getD "good"
  let socialPoints : List TalkingPoint :=
    if peer_interaction = "excellent" ∧ teamwork = "excellent" then
      [{ category := .social, priority := .medium,
         title := "Strong Social Skills",
         content := firstName ++ " demonstrates excellent peer interaction and teamwork abilities.",
         supporting_data := [("peer_interaction", .str peer_interaction),
                             ("teamwork", .str teamwork)],
         action_required := false }]
    else if peer_interaction = "needs_improvement" ∨ teamwork = "needs_improvement" then
      [{ category := .social, priority := .medium,
         title := "Social Skills Development",
         content := "We're focusing on developing " ++ firstName
           ++ "'s social interaction skills through group activities.",
         supporting_data := [("peer_interaction", .str peer_interaction),
                             ("teamwork", .str teamwork)],
         action_required := true }]
    else []
  let attendance := behavioral_profile.attendance.getD .empty
  let attendance_rate := attendance.attendanceRate.getD 0
  let tardy_count := attendance.tardyCount.getD 0
  let attendancePoints : List TalkingPoint :=
    if (0.98 : ℚ) ≤ attendance_rate then
      [{ category := .behavioral, priority := .low,
         title := "Excellent Attendance",
         content := firstName ++ " has excellent attendance with " ++ fmtPct attendance_rate
           ++ " attendance rate.",
         supporting_data := [("attendance_rate", .num attendance_rate),
                             ("tardy_count", .num tardy_count)],
         action_required := false }]
    else if attendance_rate < (0.90 : ℚ) then
      [{ category := .behavioral, priority := .high,
         title := "Attendance Concerns",
         content := "Attendance needs attention: " ++ fmtPct attendance_rate
           ++ " rate. Regular attendance is crucial for academic success.",
         supporting_data := [("attendance_rate", .num attendance_rate),
                             ("tardy_count", .num tardy_count)],
         action_required := true }]
    else []
  let tardyPoints : List TalkingPoint :=
    if (5 : ℤ) < tardy_count then
      [{ category := .behavioral, priority := .medium,
         title := "Punctuality",
         content := firstName ++ " has been tardy " ++ toString tardy_count
           ++ " times. Let's work together on morning routines.",
         supporting_data := [("tardy_count", .num tardy_count)],
         action_required := true }]
    else []
  participationPoints ++ socialPoints ++ attendancePoints ++ tardyPoints

/-- `analyze_extracurricular_engagement`, as a pure function of the profile. -/
def analyze_extracurricular_engagement (firstName : String) (sd : StudentProfile) :
    List TalkingPoint :=
  let extracurricular := sd.extracurricular.getD .empty
  let sports := extracurricular.sports.getD []
  let clubs := extracurricular.clubs.getD []
  let achievements := extracurricular.achievements.getD []
  let volunteer_hours := extracurricular.volunteerHours.getD 0
  let total_activities := sports.length + clubs.length
  let activityPoints : List TalkingPoint :=
    if 3 ≤ total_activities then
      [{ category := .social, priority := .medium,
         title := "Well-Rounded Engagement",
         content := firstName ++ " is actively involved in " ++ toString total_activities
           ++ " extracurricular activities, showing great balance.",
         supporting_data := [("sports", .strList sports), ("clubs", .strList clubs),
                             ("total_activities", .num total_activities)],
         action_required := false }]
    else if total_activities = 0 then
      [{ category := .social, priority := .low,
         title := "Extracurricular Opportunities",
         content := "Consider encouraging " ++ firstName
           ++ " to explore extracurricular activities to develop new interests and skills.",
         supporting_data := [("total_activities", .num total_activities)],
         action_required := false }]
    else []
  let achievementPoints : List TalkingPoint :=
    if achievements.isEmpty then [] else
      [{ category := .social, priority := .medium,
         title := "Recognition and Achievements",
         content := firstName ++ " has earned recognition: "
           ++ String.intercalate ", " achievements,
         supporting_data := [("achievements", .strList achievements)],
         action_required := false }]
  let volunteerPoints : List TalkingPoint :=
    if (10 : ℤ) < volunteer_hours then
      [{ category := .social, priority := .medium,
         title := "Community Service",
         content := firstName ++ " has contributed " ++ toString volunteer_hours
           ++ " volunteer hours, showing strong community engagement.",
         supporting_data := [("volunteer_hours", .num volunteer_hours)],
         action_required := false }]
    else []
  activityPoints ++ achievementPoints ++ volunteerPoints

/-- `analyze_parent_engagement`, as a pure function of the profile. -/
def analyze_parent_engagement (firstName : String) (sd : StudentProfile) :
    List TalkingPoint :=
  let parent_engagement := sd.parentEngagement.getD .empty
  let communication_frequency := parent_engagement.communicationFrequency.getD "medium"
  let homework_support := parent_engagement.homeworkSupport.getD "good"
  let concerns_raised := parent_engagement.concernsRaised.getD []
  let communicationPoints : List TalkingPoint :=
    if communication_frequency = "high" then
      [{ category := .goals, priority := .low,
         title := "Strong Parent Partnership",
         content := "Your consistent communication and involvement greatly supports "
           ++ firstName ++ "'s success.",
         supporting_data := [("communication_frequency", .str communication_frequency)],
         action_required := false }]
    else if communication_frequency = "low" then
      [{ category := .goals, priority := .medium,
         title := "Increasing Communication",
         content := "More frequent communication between home and school would benefit "
           ++ firstName ++ "'s progress.",
         supporting_data := [("communication_frequency", .str communication_frequency)],
         action_required := true }]
    else []
  let homeworkPoints : List TalkingPoint :=
    if homework_support = "excellent" then
      [{ category := .goals, priority := .low,
         title := "Homework Support",
         content := "Thank you for providing excellent homework support. It shows in "
           ++ firstName ++ "'s consistent work quality.",
         supporting_data := [("homework_support", .str homework_support)],
         action_required := false }]
    else if homework_support = "needs_improvement" then
      [{ category := .goals, priority := .medium,
         title := "Homework Partnership",
         content := "Let's discuss strategies for supporting " ++ firstName
           ++ "'s homework routine at home.",
         supporting_data := [("homework_support", .str homework_support)],
         action_required := true }]
    else []
  let concernsPoints : List TalkingPoint :=
    if concerns_raised.isEmpty then [] else
      [{ category := .goals, priority := .high,
         title := "Addressing Parent Concerns",
         content := "Let's discuss your concerns about: "
           ++ String.intercalate ", " concerns_raised,
         supporting_data := [("concerns_raised", .strList concerns_raised)],
         action_required := true }]
  communicationPoints ++ homeworkPoints ++ concernsPoints

/-- `analyze_goals_and_progress`, as a pure function of the profile. -/
def analyze_goals_and_progress (firstName : String) (sd : StudentProfile) :
    List TalkingPoint :=
  let goals := sd.goals.getD .empty
  let teacher_notes := sd.teacherNotes.getD .empty
  let short_term_goals := goals.shortTerm.getD []
  let long_term_goals := goals.longTerm.getD []
  let recommended_actions := teacher_notes.recommendedActions.getD []
  let shortTermPoints : List TalkingPoint :=
    if short_term_goals.isEmpty then [] else
      [{ category := .goals, priority := .high,
         title := "Short-term Goals Progress",
         content := "Let's review progress on " ++ firstName ++ "'s short-term goals: "
           ++ String.intercalate ", " short_term_goals,
         supporting_data := [("short_term_goals", .strList short_term_goals)],
         action_required := true }]
  let longTermPoints : List TalkingPoint :=
    if long_term_goals.isEmpty then [] else
      [{ category := .goals, priority := .medium,
         title := "Long-term Vision",
         content := "Working towards long-term goals: "
           ++ String.intercalate ", " long_term_goals,
         supporting_data := [("long_term_goals", .strList long_term_goals)],
         action_required := false }]
  let actionPoints : List TalkingPoint :=
    if recommended_actions.isEmpty then [] else
      [{ category := .recommendations, priority := .high,
         title := "Action Plan",
         content := "Recommended next steps for " ++ firstName ++ ": "
           ++ String.intercalate ", " recommended_actions,
         supporting_data := [("recommended_actions", .strList recommended_actions)],
         action_required := true }]
  let motivation_level := teacher_notes.motivationLevel.getD "medium"
  let motivationPoints : List TalkingPoint :=
    if motivation_level = "low" then
      [{ category := .recommendations, priority := .high,
         title := "Motivation Strategies",
         content := "Let's discuss strategies to increase " ++ firstName
           ++ "'s motivation and engagement in learning.",
         supporting_data := [("motivation_level", .str motivation_level)],
         action_required := true }]
    else []
  shortTermPoints ++ longTermPoints ++ actionPoints ++ motivationPoints

/-- The concatenation of the five evaluator outputs in the fixed
source order (the five `extend` calls at the top of
`generate_talking_points`). -/
def allTalkingPoints (firstName : String) (sd : StudentProfile) : List TalkingPoint :=
  analyze_academic_performance firstName sd
    ++ analyze_behavioral_profile firstName sd
    ++ analyze_extracurricular_engagement firstName sd
    ++ analyze_parent_engagement firstName sd
    ++ analyze_goals_and_progress firstName sd

/-- The sort key `priority_order = {"high": 0, "medium": 1, "low": 2}`.
(The source's `.get(x.priority, 3)` default is dead on the closed
three-valued priority type.) -/
def priorityRank : Priority → Nat
  | .high => 0
  | .medium => 1
  | .low => 2

/-- `all_talking_points.sort(key=lambda x: priority_order.get(x.priority, 3))`.
Python's `list.sort` is stable; on the closed three-valued key domain a
stable sort by key is exactly the concatenation of the equal-key
sublists in key order, which is how it is rendered here.  The
permutation and stability facts are proved below
(`sortByPriority_perm`, `filter_sortByPriority`). -/
def sortByPriority (pts : List TalkingPoint) : List TalkingPoint :=
  pts.filter (fun p => decide (p.priority = .high))
    ++ pts.filter (fun p => decide (p.priority = .medium))
    ++ pts.filter (fun p => decide (p.priority = .low))

/-- The five fixed category buckets of `categorized_points`.  The
source stores each point as a dict without its `category` key (the
bucket's own key); here the whole point is kept, which carries the
same information. -/
structure CategorizedPoints where
  academic : List TalkingPoint
  behavioral : List TalkingPoint
  social : List TalkingPoint
  goals : List TalkingPoint
  recommendations : List TalkingPoint
deriving DecidableEq, Repr

/-- The bucket of a given category. -/
def CategorizedPoints.bucket (c : CategorizedPoints) : Category → List TalkingPoint
  | .academic => c.academic
  | .behavioral => c.behavioral
  | .social => c.social
  | .goals => c.goals
  | .recommendations => c.recommendations

/-- The `for point in all_talking_points: categorized_points[point.category].append(...)`
loop: each bucket is the subsequence of the (sorted) list with that
category, in unchanged relative order. -/
def categorize (pts : List TalkingPoint) : CategorizedPoints where
  academic := pts.filter (fun p => decide (p.category = .academic))
  behavioral := pts.filter (fun p => decide (p.category = .behavioral))
  social := pts.filter (fun p => decide (p.category = .social))
  goals := pts.filter (fun p => decide (p.category = .goals))
  recommendations := pts.filter (fun p => decide (p.category = .recommendations))

/-- `_generate_overall_recommendation`. -/
def generate_overall_recommendation (firstName : String) (sd : StudentProfile)
    (talking_points : List TalkingPoint) : String :=
  let high_priority_issues :=
    talking_points.filter (fun p => decide (p.priority = .high) && p.action_required)
  let academic_gpa := (sd.academicProfile.getD .empty).currentGPA.getD 0
  if 3 ≤ high_priority_issues.length then
    firstName ++ " would benefit from increased support and intervention in multiple areas. Let's create a comprehensive action plan."
  else if (3.5 : ℚ) ≤ academic_gpa ∧ high_priority_issues.length ≤ 1 then
    firstName ++ " is performing well overall. Continue current strategies while addressing minor areas for growth."
  else if high_priority_issues.length = 0 then
    firstName ++ " is doing excellent work. Focus on maintaining current performance and exploring enrichment opportunities."
  else
    firstName ++ " shows good potential. Targeted support in key areas will help maximize success."

/-- `_create_data_summary`'s output record. -/
structure StudentDataSummary where
  current_gpa : ℚ
  attendance_rate : ℚ
  participation_level : String
  extracurricular_count : Nat
  learning_style : String
  communication_frequency : String
deriving DecidableEq, Repr

/-- `_create_data_summary`. -/
def create_data_summary (sd : StudentProfile) : StudentDataSummary where
  current_gpa := (sd.academicProfile.getD .empty).currentGPA.getD 0
  attendance_rate :=
    ((sd.behavioralProfile.getD .empty).attendance.getD .empty).attendanceRate.getD 0
  participation_level :=
    ((sd.behavioralProfile.getD .empty).participation.getD .empty).level.getD "unknown"
  extracurricular_count :=
    ((sd.extracurricular.getD .empty).sports.getD []).length
      + ((sd.extracurricular.getD .empty).clubs.getD []).length
  learning_style := (sd.academicProfile.getD .empty).learningStyle.getD "unknown"
  communication_frequency :=
    (sd.parentEngagement.getD .empty).communicationFrequency.getD "unknown"

/-- The `meeting_summary` dict.  `meeting_date` is
`datetime.now().strftime("%Y-%m-%d")` in the source; the wall-clock
date is a parameter `today` of the embedding. -/
structure MeetingSummary where
  student_name : String
  grade : String
  meeting_date : String
  total_talking_points : Nat
  high_priority_items : Nat
  action_items : Nat
  overall_recommendation : String
deriving DecidableEq, Repr

/-- The full return dict of `generate_talking_points`. -/
structure EngineOutput where
  meeting_summary : MeetingSummary
  talking_points_by_category : CategorizedPoints
  action_items : List TalkingPoint
  strengths_to_celebrate : List TalkingPoint
  student_data_summary : StudentDataSummary
deriving DecidableEq, Repr

/-- The body of `generate_talking_points` after the three required
identity fields have been read (the source sorts `all_talking_points`
in place, so every later count and filter ranges over the sorted
list). -/
def generate_talking_points_core (firstName lastName grade : String)
    (sd : StudentProfile) (today : String) : EngineOutput :=
  let sortedPoints := sortByPriority (allTalkingPoints firstName sd)
  let high_priority_count :=
    (sortedPoints.filter (fun p => decide (p.priority = .high))).length
  let action_required_count := (sortedPoints.filter (fun p => p.action_required)).length
  { meeting_summary :=
      { student_name := firstName ++ " " ++ lastName
        grade := grade
        meeting_date := today
        total_talking_points := sortedPoints.length
        high_priority_items := high_priority_count
        action_items := action_required_count
        overall_recommendation := generate_overall_recommendation firstName sd sortedPoints }
    talking_points_by_category := categorize sortedPoints
    action_items := sortedPoints.filter (fun p => p.action_required)
    strengths_to_celebrate :=
      sortedPoints.filter (fun p => decide (p.priority = .medium) && !p.action_required)
    student_data_summary := create_data_summary sd }

/-- The typed error of the engine: a required identity field
(`personalInfo.firstName/lastName/grade`, read with raw subscripts in
the source, where absence raises `KeyError`) is missing.  This is the
`MissingRequiredFieldError` of the specification. -/
inductive EngineError
| missingRequiredField (field : String)
deriving DecidableEq, Repr

/-- Raw `d['key']` subscript access: the value, or the typed error. -/
def requireField (name : String) : Option α → Except EngineError α
  | some a => .ok a
  | none => .error (.missingRequiredField name)

/-- `generate_talking_points`: either a complete `EngineOutput` or a
`missingRequiredField` error, nothing in between.  In the source the
raw subscripts sit inline (`firstName` inside every evaluator,
`lastName` and `grade` in the summary block); reading them up front
yields the same observable result, since they are reached on every
run that completes. -/
def generate_talking_points (sd : StudentProfile) (today : String) :
    Except EngineError EngineOutput := do
  let pinfo ← requireField "personalInfo" sd.personalInfo
  let firstName ← requireField "personalInfo.firstName" pinfo.firstName
  let lastName ← requireField "personalInfo.lastName" pinfo.lastName
  let grade ← requireField "personalInfo.grade" pinfo.grade
  pure (generate_talking_points_core firstName lastName grade sd today)

/-- Decidable presence check for the three required identity fields. -/
def requiredPresent (sd : StudentProfile) : Bool :=
  match sd.personalInfo with
  | none => false
  | some pinfo => pinfo.firstName.isSome && pinfo.lastName.isSome && pinfo.grade.isSome

/-- Overwrite the generation-time date of an output (used to compare
two runs modulo the timestamp). -/
def setDate (d : String) (out : EngineOutput) : EngineOutput :=
  { out with meeting_summary := { out.meeting_summary with meeting_date := d } }

/-- The attendance rate the behavioral evaluator reads (with the
source's chain of `.get` defaults). -/
def attendanceRateOf (sd : StudentProfile) : ℚ :=
  ((sd.behavioralProfile.getD .empty).attendance.getD .empty).attendanceRate.getD 0

/-- The tardy count the behavioral evaluator reads. -/
def tardyCountOf (sd : StudentProfile) : ℤ :=
  ((sd.behavioralProfile.getD .empty).attendance.getD .empty).tardyCount.getD 0

/-- The GPA the GPA-classification branch and the recommendation
ladder read. -/
def gpaOf (sd : StudentProfile) : ℚ :=
  (sd.academicProfile.getD .empty).currentGPA.getD 0

/-- A point is one of the three GPA-classification points, recognised
by its title. -/
def gpaTitleB (p : TalkingPoint) : Bool :=
  decide (p.title = "Excellent Academic Performance")
    || decide (p.title = "Solid Academic Performance")
    || decide (p.title = "Academic Support Needed")

/-- The high-priority-and-action-required test of the recommendation
ladder. -/
def highActionB (p : TalkingPoint) : Bool :=
  decide (p.priority = .high) && p.action_required

/-! ### Helper lemmas -/

/-- With the three required identity fields present, the engine
returns a complete output. -/
lemma generate_ok {sd : StudentProfile} {pinfo : PersonalInfo} {fn ln gr : String}
    (hpi : sd.personalInfo = some pinfo) (hfn : pinfo.firstName = some fn)
    (hln : pinfo.lastName = some ln) (hgr : pinfo.grade = some gr) (today : String) :
    generate_talking_points sd today =
      .ok (generate_talking_points_core fn ln gr sd today) := by
  simp [generate_talking_points, requireField, hpi, hfn, hln, hgr, bind, Except.bind,
    Functor.map, Except.map, pure, Except.pure]

/-- The stable sort is a permutation of its input. -/
lemma sortByPriority_perm (l : List TalkingPoint) : (sortByPriority l).Perm l := by
  induction l with
  | nil => rfl
  | cons x xs ih =>
    unfold sortByPriority at ih ⊢
    rw [List.filter_cons, List.filter_cons, List.filter_cons]
    cases hx : x.priority with
    | high =>
      simp only [hx, decide_eq_true_eq, if_true, if_false, reduceCtorEq, reduceIte,
        List.cons_append]
      exact ih.cons x
    | medium =>
      simp only [hx, decide_eq_true_eq, if_true, if_false, reduceCtorEq, reduceIte]
      rw [List.append_assoc, List.cons_append]
      refine List.Perm.trans List.perm_middle (List.Perm.cons x ?_)
      simpa [List.append_assoc] using ih
    | low =>
      simp only [hx, decide_eq_true_eq, if_true, if_false, reduceCtorEq, reduceIte]
      refine List.Perm.trans List.perm_middle (List.Perm.cons x ?_)
      exact ih

/-- Stability, conjunction form: filtering the sorted list by a fixed
priority (conjoined with any further test) gives the same subsequence,
in the same order, as filtering the unsorted concatenation. -/
lemma filter_sortByPriority_and (l : List TalkingPoint) (pr : Priority)
    (q : TalkingPoint → Bool) :
    (sortByPriority l).filter (fun p => decide (p.priority = pr) && q p)
      = l.filter (fun p => decide (p.priority = pr) && q p) := by
  have hpos : (l.filter (fun p => decide (p.priority = pr))).filter
      (fun p => decide (p.priority = pr) && q p)
      = l.filter (fun p => decide (p.priority = pr) && q p) := by
    rw [List.filter_filter]
    refine List.filter_congr ?_
    intro a _
    by_cases h : a.priority = pr
    · simp [h]
    · simp [h]
  have hz : ∀ pr' : Priority, pr' ≠ pr →
      (l.filter (fun p => decide (p.priority = pr'))).filter
        (fun p => decide (p.priority = pr) && q p) = [] := by
    intro pr' hne
    rw [List.filter_filter]
    have hfalse : ∀ a ∈ l,
        ((decide (a.priority = pr) && q a) && decide (a.priority = pr'))
          = (fun _ : TalkingPoint => false) a := by
      intro a _
      by_cases h : a.priority = pr'
      · have h2 : ¬ a.priority = pr := fun hh => hne (by rw [← h, hh])
        simp [h2]
      · simp [h]
    rw [List.filter_congr hfalse, List.filter_false]
  unfold sortByPriority
  rw [List.filter_append, List.filter_append]
  cases pr with
  | high =>
    rw [hpos, hz Priority.medium (by decide), hz Priority.low (by decide)]
    simp
  | medium =>
    rw [hpos, hz Priority.high (by decide), hz Priority.low (by decide)]
    simp
  | low =>
    rw [hpos, hz Priority.high (by decide), hz Priority.medium (by decide)]
    simp

/-- Stability, plain form: equal-priority points keep their
pre-sort relative order. -/
lemma filter_sortByPriority (l : List TalkingPoint) (pr : Priority) :
    (sortByPriority l).filter (fun p => decide (p.priority = pr))
      = l.filter (fun p => decide (p.priority = pr)) := by
  have h := filter_sortByPriority_and l pr (fun _ => true)
  simpa using h

/-- The sorted list is monotone in priority rank. -/
lemma sortByPriority_sorted (l : List TalkingPoint) :
    (sortByPriority l).Pairwise
      (fun a b => priorityRank a.priority ≤ priorityRank b.priority) := by
  have hmem : ∀ (pr : Priority) (a : TalkingPoint),
      a ∈ l.filter (fun p => decide (p.priority = pr)) → a.priority = pr := by
    intro pr a ha
    have h := List.of_mem_filter ha
    simpa using h
  unfold sortByPriority
  rw [List.pairwise_append, List.pairwise_append]
  refine ⟨⟨?_, ?_, ?_⟩, ?_, ?_⟩
  · refine List.pairwise_of_forall_mem_list ?_
    intro a ha b hb
    rw [hmem _ _ ha, hmem _ _ hb]
  · refine List.pairwise_of_forall_mem_list ?_
    intro a ha b hb
    rw [hmem _ _ ha, hmem _ _ hb]
  · intro a ha b hb
    rw [hmem _ _ ha, hmem _ _ hb]
    decide
  · refine List.pairwise_of_forall_mem_list ?_
    intro a ha b hb
    rw [hmem _ _ ha, hmem _ _ hb]
  · intro a ha b hb
    rcases List.mem_append.mp ha with h | h
    · rw [hmem _ _ h, hmem _ _ hb]
      decide
    · rw [hmem _ _ h, hmem _ _ hb]
      decide

/-- Heads of appended strings. -/
lemma head_data_append (a s : String) (c : Char) (h : a.data.head? = some c) :
    ((a ++ s).data).head? = some c := by
  rw [String.data_append, List.head?_append, h]
  rfl

/-- Strings whose data start differently are different. -/
lemma ne_of_head_data {a b : String} (h : a.data.head? ≠ b.data.head?) : a ≠ b :=
  fun hh => h (congrArg (fun s : String => s.data.head?) hh)

/-- A string starting with `ca` never equals one starting with a
different `cb`, whatever the appended tail. -/
lemma append_ne_of_head (a x b : String) (ca cb : Char)
    (ha : a.data.head? = some ca) (hb : b.data.head? = some cb) (hne : ca ≠ cb) :
    (a ++ x) ≠ b := by
  apply ne_of_head_data
  rw [head_data_append a x ca ha, hb]
  simp [hne]

/-- The `"5"` row of the expectation table. -/
lemma expectationsFor_five : expectationsFor "5" = gradeFiveExpectations := rfl

/-- Any grade outside the table's other keys resolves to the grade-5
row (for `"5"` itself by lookup, otherwise by the `.get` fallback). -/
lemma expectationsFor_default {g : String} (h3 : g ≠ "3") (h4 : g ≠ "4")
    (h6 : g ≠ "6") : expectationsFor g = gradeFiveExpectations := by
  by_cases h5 : g = "5"
  · rw [h5]
    exact expectationsFor_five
  · unfold expectationsFor grade_level_expectations
    rw [List.lookup_cons, List.lookup_cons, List.lookup_cons, List.lookup_cons]
    simp only [beq_eq_false_iff_ne.mpr h3, beq_eq_false_iff_ne.mpr h4,
      beq_eq_false_iff_ne.mpr h5, beq_eq_false_iff_ne.mpr h6]
    rfl

/-- Every row of the expectation table has positive GPA thresholds. -/
lemma expectations_pos (g : String) :
    0 < (expectationsFor g).gpa_good ∧ 0 < (expectationsFor g).gpa_excellent := by
  by_cases h3 : g = "3"
  · rw [h3, show expectationsFor "3" = ⟨3.5, 3.0, 0.95⟩ from rfl]
    norm_num
  · by_cases h4 : g = "4"
    · rw [h4, show expectationsFor "4" = ⟨3.6, 3.1, 0.95⟩ from rfl]
      norm_num
    · by_cases h6 : g = "6"
      · rw [h6, show expectationsFor "6" = ⟨3.8, 3.3, 0.96⟩ from rfl]
        norm_num
      · rw [expectationsFor_default h3 h4 h6]
        norm_num [gradeFiveExpectations]

/-- `"Improvement in …"` and `"Concerns in …"` titles never collide
with the three GPA-classification titles. -/
lemma impNeExc (s : String) :
    ("Improvement in " ++ s) ≠ "Excellent Academic Performance" :=
  append_ne_of_head _ _ _ 'I' 'E' rfl rfl (by decide)

lemma impNeSolid (s : String) :
    ("Improvement in " ++ s) ≠ "Solid Academic Performance" :=
  append_ne_of_head _ _ _ 'I' 'S' rfl rfl (by decide)

lemma impNeSupport (s : String) :
    ("Improvement in " ++ s) ≠ "Academic Support Needed" :=
  append_ne_of_head _ _ _ 'I' 'A' rfl rfl (by decide)

lemma conNeExc (s : String) :
    ("Concerns in " ++ s) ≠ "Excellent Academic Performance" :=
  append_ne_of_head _ _ _ 'C' 'E' rfl rfl (by decide)

lemma conNeSolid (s : String) :
    ("Concerns in " ++ s) ≠ "Solid Academic Performance" :=
  append_ne_of_head _ _ _ 'C' 'S' rfl rfl (by decide)

lemma conNeSupport (s : String) :
    ("Concerns in " ++ s) ≠ "Academic Support Needed" :=
  append_ne_of_head _ _ _ 'C' 'A' rfl rfl (by decide)

/-- No per-subject point carries a GPA-classification title. -/
lemma subjectPoint_not_gpa (sdata : String × SubjectData) :
    ∀ a ∈ subjectPoint sdata, gpaTitleB a = false := by
  intro a ha
  simp only [subjectPoint] at ha
  split at ha
  · rw [List.mem_singleton] at ha
    subst ha
    simp [gpaTitleB, impNeExc, impNeSolid, impNeSupport]
  · split at ha
    · rw [List.mem_singleton] at ha
      subst ha
      simp [gpaTitleB, conNeExc, conNeSolid, conNeSupport]
    · exact absurd ha (List.not_mem_nil _)

/-- In the academic evaluator, priority-low never occurs at all, so
low implies non-action vacuously. -/
lemma academic_low_nonaction (fn : String) (sd : StudentProfile) :
    ∀ tp ∈ analyze_academic_performance fn sd,
      tp.priority = .low → tp.action_required = false := by
  simp only [analyze_academic_performance]
  refine List.forall_mem_append.mpr ⟨List.forall_mem_append.mpr
    ⟨List.forall_mem_append.mpr ⟨?_, ?_⟩, ?_⟩, ?_⟩
  · split
    · exact List.forall_mem_singleton.mpr (fun h => nomatch h)
    · split
      · exact List.forall_mem_singleton.mpr (fun h => nomatch h)
      · exact List.forall_mem_singleton.mpr (fun h => nomatch h)
  · refine List.forall_mem_flatMap.mpr ?_
    intro a _
    simp only [subjectPoint]
    split
    · exact List.forall_mem_singleton.mpr (fun h => nomatch h)
    · split
      · exact List.forall_mem_singleton.mpr (fun h => nomatch h)
      · intro x hx
        exact absurd hx (List.not_mem_nil _)
  · split
    · intro x hx
      exact absurd hx (List.not_mem_nil _)
    · exact List.forall_mem_singleton.mpr (fun h => nomatch h)
  · split
    · intro x hx
      exact absurd hx (List.not_mem_nil _)
    · exact List.forall_mem_singleton.mpr (fun h => nomatch h)

/-- In the behavioral evaluator, the only priority-low point
(excellent attendance) has no action flag. -/
lemma behavioral_low_nonaction (fn : String) (sd : StudentProfile) :
    ∀ tp ∈ analyze_behavioral_profile fn sd,
      tp.priority = .low → tp.action_required = false := by
  simp only [analyze_behavioral_profile]
  refine List.forall_mem_append.mpr ⟨List.forall_mem_append.mpr
    ⟨List.forall_mem_append.mpr ⟨?_, ?_⟩, ?_⟩, ?_⟩
  · split
    · exact List.forall_mem_singleton.mpr (fun h => nomatch h)
    · split
      · exact List.forall_mem_singleton.mpr (fun h => nomatch h)
      · intro x hx
        exact absurd hx (List.not_mem_nil _)
  · split
    · exact List.forall_mem_singleton.mpr (fun h => nomatch h)
    · split
      · exact List.forall_mem_singleton.mpr (fun h => nomatch h)
      · intro x hx
        exact absurd hx (List.not_mem_nil _)
  · split
    · exact List.forall_mem_singleton.mpr (fun _ => rfl)
    · split
      · exact List.forall_mem_singleton.mpr (fun h => nomatch h)
      · intro x hx
        exact absurd hx (List.not_mem_nil _)
  · split
    · exact List.forall_mem_singleton.mpr (fun h => nomatch h)
    · intro x hx
      exact absurd hx (List.not_mem_nil _)

/-- In the extracurricular evaluator, the only priority-low point
(activity exploration) has no action flag. -/
lemma extracurricular_low_nonaction (fn : String) (sd : StudentProfile) :
    ∀ tp ∈ analyze_extracurricular_engagement fn sd,
      tp.priority = .low → tp.action_required = false := by
  simp only [analyze_extracurricular_engagement]
  refine List.forall_mem_append.mpr ⟨List.forall_mem_append.mpr ⟨?_, ?_⟩, ?_⟩
  · split
    · exact List.forall_mem_singleton.mpr (fun h => nomatch h)
    · split
      · exact List.forall_mem_singleton.mpr (fun _ => rfl)
      · intro x hx
        exact absurd hx (List.not_mem_nil _)
  · split
    · intro x hx
      exact absurd hx (List.not_mem_nil _)
    · exact List.forall_mem_singleton.mpr (fun h => nomatch h)
  · split
    · exact List.forall_mem_singleton.mpr (fun h => nomatch h)
    · intro x hx
      exact absurd hx (List.not_mem_nil _)

/-- In the parent-engagement evaluator, both priority-low points
(thank-you points) have no action flag. -/
lemma parent_low_nonaction (fn : String) (sd : StudentProfile) :
    ∀ tp ∈ analyze_parent_engagement fn sd,
      tp.priority = .low → tp.action_required = false := by
  simp only [analyze_parent_engagement]
  refine List.forall_mem_append.mpr ⟨List.forall_mem_append.mpr ⟨?_, ?_⟩, ?_⟩
  · split
    · exact List.forall_mem_singleton.mpr (fun _ => rfl)
    · split
      · exact List.forall_mem_singleton.mpr (fun h => nomatch h)
      · intro x hx
        exact absurd hx (List.not_mem_nil _)
  · split
    · exact List.forall_mem_singleton.mpr (fun _ => rfl)
    · split
      · exact List.forall_mem_singleton.mpr (fun h => nomatch h)
      · intro x hx
        exact absurd hx (List.not_mem_nil _)
  · split
    · intro x hx
      exact absurd hx (List.not_mem_nil _)
    · exact List.forall_mem_singleton.mpr (fun h => nomatch h)

/-- In the goals evaluator, priority-low never occurs. -/
lemma goals_low_nonaction (fn : String) (sd : StudentProfile) :
    ∀ tp ∈ analyze_goals_and_progress fn sd,
      tp.priority = .low → tp.action_required = false := by
  simp only [analyze_goals_and_progress]
  refine List.forall_mem_append.mpr ⟨List.forall_mem_append.mpr
    ⟨List.forall_mem_append.mpr ⟨?_, ?_⟩, ?_⟩, ?_⟩
  · split
    · intro x hx
      exact absurd hx (List.not_mem_nil _)
    · exact List.forall_mem_singleton.mpr (fun h => nomatch h)
  · split
    · intro x hx
      exact absurd hx (List.not_mem_nil _)
    · exact List.forall_mem_singleton.mpr (fun h => nomatch h)
  · split
    · intro x hx
      exact absurd hx (List.not_mem_nil _)
    · exact List.forall_mem_singleton.mpr (fun h => nomatch h)
  · split
    · exact List.forall_mem_singleton.mpr (fun h => nomatch h)
    · intro x hx
      exact absurd hx (List.not_mem_nil _)

/-- Closed string and priority disequalities used when evaluating the
engine on concrete profiles. -/
lemma sMedHigh : ¬ (("medium" : String) = "high") := by decide

lemma sMedLow : ¬ (("medium" : String) = "low") := by decide

lemma sGoodExc : ¬ (("good" : String) = "excellent") := by decide

lemma sGoodNI : ¬ (("good" : String) = "needs_improvement") := by decide

lemma pHM : ¬ (Priority.high = Priority.medium) := by decide

lemma pHL : ¬ (Priority.high = Priority.low) := by decide

lemma pMH : ¬ (Priority.medium = Priority.high) := by decide

lemma pML : ¬ (Priority.medium = Priority.low) := by decide

lemma pLH : ¬ (Priority.low = Priority.high) := by decide

lemma pLM : ¬ (Priority.low = Priority.medium) := by decide

/-- The academic evaluator always starts with a GPA-classification
point of category `academic`. -/
lemma analyze_academic_cons (fn : String) (sd : StudentProfile) :
    ∃ pt rest, analyze_academic_performance fn sd = pt :: rest
      ∧ pt.category = .academic ∧ gpaTitleB pt = true := by
  unfold analyze_academic_performance
  by_cases h1 : (expectationsFor ((sd.personalInfo.getD .empty).grade.getD "5")).gpa_excellent
      ≤ (sd.academicProfile.getD .empty).currentGPA.getD 0
  · simp only [h1, if_true]
    exact ⟨_, _, rfl, rfl, rfl⟩
  · by_cases h2 : (expectationsFor ((sd.personalInfo.getD .empty).grade.getD "5")).gpa_good
        ≤ (sd.academicProfile.getD .empty).currentGPA.getD 0
    · simp only [h1, h2, if_true, if_false]
      exact ⟨_, _, rfl, rfl, rfl⟩
    · simp only [h1, h2, if_false]
      exact ⟨_, _, rfl, rfl, rfl⟩

/-! ### Concrete profiles for witnesses and counterexamples -/

/-- A `personalInfo` with all three required identity fields. -/
def avaPersonal : PersonalInfo :=
  { firstName := some "Ava", lastName := some "Li", grade := some "5" }

/-- A minimal profile: required identity fields only, every other
section absent. -/
def minimalProfile : StudentProfile := { personalInfo := some avaPersonal }

/-- A profile with GPA 3.9 and attendance 0.95: no evaluator produces
a high-priority action-required point, and the GPA clears 3.5. -/
def strongProfile : StudentProfile :=
  { personalInfo := some avaPersonal,
    academicProfile := some { currentGPA := some 3.9 },
    behavioralProfile := some
      { attendance := some { attendanceRate := some 0.95, tardyCount := some 0 } } }

/-- A profile missing `personalInfo.lastName` (and `grade`). -/
def missingNameProfile : StudentProfile :=
  { personalInfo := some { firstName := some "Ava" } }

/-! ### Claims -/

/-- Claim C1, counterexample: on `strongProfile` every evaluator
produces zero points that are both priority-high and action-required,
and the GPA (3.9) is at least 3.5, yet `overallRecommendation` is the
positive/continue-strategies message, not the excellent-work message:
the `gpa ≥ 3.5 ∧ count ≤ 1` branch of the ladder fires before the
`count == 0` branch. -/
theorem c1_counterexample :
    (allTalkingPoints "Ava" strongProfile).countP highActionB = 0
    ∧ (3.5 : ℚ) ≤ gpaOf strongProfile
    ∧ generate_talking_points strongProfile "2026-03-01"
        = .ok (generate_talking_points_core "Ava" "Li" "5" strongProfile "2026-03-01")
    ∧ (generate_talking_points_core "Ava" "Li" "5" strongProfile
          "2026-03-01").meeting_summary.overall_recommendation
        ≠ "Ava is doing excellent work. Focus on maintaining current performance and exploring enrichment opportunities."
    ∧ (generate_talking_points_core "Ava" "Li" "5" strongProfile
          "2026-03-01").meeting_summary.overall_recommendation
        = "Ava is performing well overall. Continue current strategies while addressing minor areas for growth." := by
  refine ⟨?_, ?_, rfl, ?_, ?_⟩ <;>
    norm_num [generate_talking_points_core, generate_overall_recommendation, sortByPriority,
      allTalkingPoints, analyze_academic_performance, analyze_behavioral_profile,
      analyze_extracurricular_engagement, analyze_parent_engagement,
      analyze_goals_and_progress, strongProfile, avaPersonal, expectationsFor_five,
      gradeFiveExpectations, gpaOf, highActionB, AcademicProfile.empty,
      BehavioralProfile.empty, Attendance.empty, Participation.empty, SocialSkills.empty,
      Extracurricular.empty, ParentEngagement.empty, GoalsProfile.empty, TeacherNotes.empty,
      PersonalInfo.empty, List.countP_cons, List.countP_append, List.filter_cons,
      List.filter_append, sMedHigh, sMedLow, sGoodExc, sGoodNI, pHM, pHL, pMH, pML, pLH, pLM,
      decide_True, decide_False] <;>
    decide

/-- Claim C1 as amended: for every profile with the required identity
fields in which no evaluator produces a point that is both
priority-high and action-required, and whose GPA is at least 3.5, the
overall recommendation is the positive/continue-strategies message
(the ladder's second branch, which precedes the excellent-work
branch). -/
theorem c1_amended (sd : StudentProfile) (pinfo : PersonalInfo)
    (fn ln gr today : String)
    (hpi : sd.personalInfo = some pinfo) (hfn : pinfo.firstName = some fn)
    (hln : pinfo.lastName = some ln) (hgr : pinfo.grade = some gr)
    (hzero : (allTalkingPoints fn sd).countP highActionB = 0)
    (hgpa : (3.5 : ℚ) ≤ gpaOf sd) :
    ∃ out, generate_talking_points sd today = .ok out
      ∧ out.meeting_summary.overall_recommendation
        = fn ++ " is performing well overall. Continue current strategies while addressing minor areas for growth." := by
  refine ⟨_, generate_ok hpi hfn hln hgr today, ?_⟩
  have hlen : ((sortByPriority (allTalkingPoints fn sd)).filter highActionB).length = 0 := by
    rw [← List.countP_eq_length_filter, (sortByPriority_perm _).countP_eq]
    exact hzero
  unfold gpaOf at hgpa
  simp only [generate_talking_points_core, generate_overall_recommendation]
  rw [show (fun p : TalkingPoint => decide (p.priority = .high) && p.action_required)
      = highActionB from rfl, hlen]
  simp [hgpa]

/-- Claim C1, amended-claim witness at `strongProfile`. -/
theorem c1_amended_witness :
    ∃ out, generate_talking_points strongProfile "2026-03-01" = .ok out
      ∧ out.meeting_summary.overall_recommendation
        = "Ava is performing well overall. Continue current strategies while addressing minor areas for growth." := by
  refine c1_amended strongProfile avaPersonal "Ava" "Li" "5" "2026-03-01"
    rfl rfl rfl rfl ?_ ?_ <;>
    norm_num [allTalkingPoints, analyze_academic_performance, analyze_behavioral_profile,
      analyze_extracurricular_engagement, analyze_parent_engagement,
      analyze_goals_and_progress, strongProfile, avaPersonal, expectationsFor_five,
      gradeFiveExpectations, gpaOf, highActionB, AcademicProfile.empty,
      BehavioralProfile.empty, Attendance.empty, Participation.empty, SocialSkills.empty,
      Extracurricular.empty, ParentEngagement.empty, GoalsProfile.empty, TeacherNotes.empty,
      PersonalInfo.empty, List.countP_cons, List.countP_append, sMedHigh, sMedLow, sGoodExc,
      sGoodNI, pHM, pHL, pMH, pML, pLH, pLM, decide_True, decide_False]

/-- Claim C2: the overall recommendation is the literal four-branch
ladder over `n` = the number of talking points that are both
priority-high and action-required, each branch interpolating the
student's first name. -/
theorem c2_ladder (sd : StudentProfile) (pinfo : PersonalInfo)
    (fn ln gr today : String)
    (hpi : sd.personalInfo = some pinfo) (hfn : pinfo.firstName = some fn)
    (hln : pinfo.lastName = some ln) (hgr : pinfo.grade = some gr) :
    ∃ out, generate_talking_points sd today = .ok out
      ∧ out.meeting_summary.overall_recommendation =
          (if 3 ≤ (allTalkingPoints fn sd).countP highActionB then
            fn ++ " would benefit from increased support and intervention in multiple areas. Let's create a comprehensive action plan."
          else if (3.5 : ℚ) ≤ gpaOf sd
              ∧ (allTalkingPoints fn sd).countP highActionB ≤ 1 then
            fn ++ " is performing well overall. Continue current strategies while addressing minor areas for growth."
          else if (allTalkingPoints fn sd).countP highActionB = 0 then
            fn ++ " is doing excellent work. Focus on maintaining current performance and exploring enrichment opportunities."
          else
            fn ++ " shows good potential. Targeted support in key areas will help maximize success.") := by
  refine ⟨_, generate_ok hpi hfn hln hgr today, ?_⟩
  have hlen : ((sortByPriority (allTalkingPoints fn sd)).filter highActionB).length
      = (allTalkingPoints fn sd).countP highActionB := by
    rw [← List.countP_eq_length_filter, (sortByPriority_perm _).countP_eq]
  simp only [generate_talking_points_core, generate_overall_recommendation, gpaOf]
  rw [show (fun p : TalkingPoint => decide (p.priority = .high) && p.action_required)
      = highActionB from rfl, hlen]

/-- Claim C2, witness at `minimalProfile` (its count of
high-and-action points is 2 and its GPA defaults to 0, so the last
ladder branch fires). -/
theorem c2_ladder_witness :
    ∃ out, generate_talking_points minimalProfile "2026-03-01" = .ok out
      ∧ out.meeting_summary.overall_recommendation
        = "Ava shows good potential. Targeted support in key areas will help maximize success." := by
  obtain ⟨out, hout, hrec⟩ := c2_ladder minimalProfile avaPersonal "Ava" "Li" "5" "2026-03-01"
    rfl rfl rfl rfl
  refine ⟨out, hout, ?_⟩
  rw [hrec]
  norm_num [allTalkingPoints, analyze_academic_performance, analyze_behavioral_profile,
    analyze_extracurricular_engagement, analyze_parent_engagement,
    analyze_goals_and_progress, minimalProfile, avaPersonal, expectationsFor_five,
    gradeFiveExpectations, gpaOf, highActionB, AcademicProfile.empty,
    BehavioralProfile.empty, Attendance.empty, Participation.empty, SocialSkills.empty,
    Extracurricular.empty, ParentEngagement.empty, GoalsProfile.empty, TeacherNotes.empty,
    PersonalInfo.empty, List.countP_cons, List.countP_append, sMedHigh, sMedLow, sGoodExc,
    sGoodNI, pHM, pHL, pMH, pML, pLH, pLM, decide_True, decide_False]
  decide

/-- Claim C3: a profile missing any of the three required identity
fields makes the engine return the typed `missingRequiredField` error
(and, the output type being `Except`, there is no partial output);
with all three present the engine always returns a complete output,
whatever optional fields are absent. -/
theorem c3_required_fields (sd : StudentProfile) (today : String) :
    (requiredPresent sd = false →
      ∃ f, generate_talking_points sd today = .error (.missingRequiredField f))
    ∧ (requiredPresent sd = true →
      ∃ out, generate_talking_points sd today = .ok out) := by
  constructor
  · intro h
    cases hpi : sd.personalInfo with
    | none =>
      exact ⟨"personalInfo",
        by simp [generate_talking_points, requireField, hpi, bind, Except.bind]⟩
    | some pinfo =>
      cases hfn : pinfo.firstName with
      | none =>
        exact ⟨"personalInfo.firstName",
          by simp [generate_talking_points, requireField, hpi, hfn, bind, Except.bind]⟩
      | some fn =>
        cases hln : pinfo.lastName with
        | none =>
          exact ⟨"personalInfo.lastName",
            by simp [generate_talking_points, requireField, hpi, hfn, hln, bind,
              Except.bind, Functor.map, Except.map]⟩
        | some ln =>
          cases hgr : pinfo.grade with
          | none =>
            exact ⟨"personalInfo.grade",
              by simp [generate_talking_points, requireField, hpi, hfn, hln, hgr, bind,
                Except.bind, Functor.map, Except.map]⟩
          | some gr =>
            exfalso
            simp [requiredPresent, hpi, hfn, hln, hgr] at h
  · intro h
    cases hpi : sd.personalInfo with
    | none => simp [requiredPresent, hpi] at h
    | some pinfo =>
      cases hfn : pinfo.firstName with
      | none => simp [requiredPresent, hpi, hfn] at h
      | some fn =>
        cases hln : pinfo.lastName with
        | none => simp [requiredPresent, hpi, hfn, hln] at h
        | some ln =>
          cases hgr : pinfo.grade with
          | none => simp [requiredPresent, hpi, hfn, hln, hgr] at h
          | some gr => exact ⟨_, generate_ok hpi hfn hln hgr today⟩

/-- Claim C3, witness: the error case at `missingNameProfile` and the
success case at `minimalProfile`. -/
theorem c3_required_fields_witness :
    (∃ f, generate_talking_points missingNameProfile "2026-03-01"
        = .error (.missingRequiredField f))
    ∧ ∃ out, generate_talking_points minimalProfile "2026-03-01" = .ok out :=
  ⟨(c3_required_fields missingNameProfile "2026-03-01").1 rfl,
   (c3_required_fields minimalProfile "2026-03-01").2 rfl⟩

/-- Claim C8: two runs on the identical profile differ at most in
`meetingSummary.meetingDate` — overwriting that one field makes the
two results equal, whatever the two wall-clock dates were. -/
theorem c8_deterministic (sd : StudentProfile) (d1 d2 : String) :
    Except.map (setDate "") (generate_talking_points sd d1)
      = Except.map (setDate "") (generate_talking_points sd d2) := by
  cases hpi : sd.personalInfo with
  | none =>
    simp [generate_talking_points, requireField, hpi, bind, Except.bind,
      Except.map, Functor.map]
  | some pinfo =>
    cases hfn : pinfo.firstName with
    | none =>
      simp [generate_talking_points, requireField, hpi, hfn, bind, Except.bind,
        Except.map, Functor.map]
    | some fn =>
      cases hln : pinfo.lastName with
      | none =>
        simp [generate_talking_points, requireField, hpi, hfn, hln, bind, Except.bind,
          Except.map, Functor.map]
      | some ln =>
        cases hgr : pinfo.grade with
        | none =>
          simp [generate_talking_points, requireField, hpi, hfn, hln, hgr, bind,
            Except.bind, Except.map, Functor.map]
        | some gr =>
          rw [generate_ok hpi hfn hln hgr d1, generate_ok hpi hfn hln hgr d2]
          rfl

/-- Claim C4: the aggregator concatenates the five evaluator outputs
in the fixed order, stable-sorts by priority rank, and buckets by
category preserving post-sort order: the sorted sequence is
priority-monotonic, equal-priority points keep their concatenation
order, and every category bucket is the post-sort subsequence of that
category — so ordered by priority first and original evaluator order
second. -/
theorem c4_aggregator (sd : StudentProfile) (pinfo : PersonalInfo)
    (fn ln gr today : String)
    (hpi : sd.personalInfo = some pinfo) (hfn : pinfo.firstName = some fn)
    (hln : pinfo.lastName = some ln) (hgr : pinfo.grade = some gr) :
    ∃ out, generate_talking_points sd today = .ok out
      ∧ allTalkingPoints fn sd
          = analyze_academic_performance fn sd ++ analyze_behavioral_profile fn sd
            ++ analyze_extracurricular_engagement fn sd ++ analyze_parent_engagement fn sd
            ++ analyze_goals_and_progress fn sd
      ∧ out.talking_points_by_category = categorize (sortByPriority (allTalkingPoints fn sd))
      ∧ (sortByPriority (allTalkingPoints fn sd)).Pairwise
          (fun a b => priorityRank a.priority ≤ priorityRank b.priority)
      ∧ (∀ pr : Priority,
          (sortByPriority (allTalkingPoints fn sd)).filter (fun p => decide (p.priority = pr))
            = (allTalkingPoints fn sd).filter (fun p => decide (p.priority = pr)))
      ∧ (∀ c : Category, out.talking_points_by_category.bucket c
            = (sortByPriority (allTalkingPoints fn sd)).filter
                (fun p => decide (p.category = c)))
      ∧ (∀ (c : Category) (pr : Priority),
          (out.talking_points_by_category.bucket c).filter (fun p => decide (p.priority = pr))
            = (allTalkingPoints fn sd).filter
                (fun p => decide (p.category = c) && decide (p.priority = pr))) := by
  have hcat : (generate_talking_points_core fn ln gr sd today).talking_points_by_category
      = categorize (sortByPriority (allTalkingPoints fn sd)) := by
    simp only [generate_talking_points_core]
  have hbucket : ∀ c : Category,
      (categorize (sortByPriority (allTalkingPoints fn sd))).bucket c
        = (sortByPriority (allTalkingPoints fn sd)).filter
            (fun p => decide (p.category = c)) := by
    intro c
    cases c <;> simp only [categorize, CategorizedPoints.bucket]
  refine ⟨_, generate_ok hpi hfn hln hgr today, rfl, hcat, sortByPriority_sorted _,
    filter_sortByPriority _, ?_, ?_⟩
  · intro c
    rw [hcat, hbucket c]
  · intro c pr
    rw [hcat, hbucket c, List.filter_filter, filter_sortByPriority_and (allTalkingPoints fn sd)
      pr (fun p => decide (p.category = c))]
    refine List.filter_congr ?_
    intro a _
    exact Bool.and_comm _ _

/-- Claim C5: `strengthsToCelebrate` is exactly the subsequence of the
(sorted) talking points with priority medium and no action flag — so
low-priority non-action points are excluded — and `actionItems` is
exactly the subsequence with the action flag, whose length is the
summary's `actionItems` count. -/
theorem c5_output_filters (sd : StudentProfile) (pinfo : PersonalInfo)
    (fn ln gr today : String)
    (hpi : sd.personalInfo = some pinfo) (hfn : pinfo.firstName = some fn)
    (hln : pinfo.lastName = some ln) (hgr : pinfo.grade = some gr) :
    ∃ out, generate_talking_points sd today = .ok out
      ∧ out.strengths_to_celebrate
          = (sortByPriority (allTalkingPoints fn sd)).filter
              (fun p => decide (p.priority = .medium) && !p.action_required)
      ∧ (∀ p ∈ out.strengths_to_celebrate,
          p.priority = .medium ∧ p.action_required = false)
      ∧ out.action_items
          = (sortByPriority (allTalkingPoints fn sd)).filter (fun p => p.action_required)
      ∧ (∀ p ∈ out.action_items, p.action_required = true)
      ∧ out.action_items.length = out.meeting_summary.action_items := by
  refine ⟨_, generate_ok hpi hfn hln hgr today, rfl, ?_, rfl, ?_, rfl⟩
  · intro p hp
    have h := List.of_mem_filter hp
    simp only [Bool.and_eq_true, decide_eq_true_eq, Bool.not_eq_true'] at h
    exact h
  · intro p hp
    exact List.of_mem_filter hp

/-- Claim C4, witness at `minimalProfile`. -/
theorem c4_aggregator_witness :
    ∃ out, generate_talking_points minimalProfile "2026-03-01" = .ok out
      ∧ out.talking_points_by_category
          = categorize (sortByPriority (allTalkingPoints "Ava" minimalProfile))
      ∧ (sortByPriority (allTalkingPoints "Ava" minimalProfile)).Pairwise
          (fun a b => priorityRank a.priority ≤ priorityRank b.priority) := by
  obtain ⟨out, h1, -, h3, h4, -⟩ := c4_aggregator minimalProfile avaPersonal
    "Ava" "Li" "5" "2026-03-01" rfl rfl rfl rfl
  exact ⟨out, h1, h3, h4⟩

/-- Claim C5, witness at `minimalProfile`. -/
theorem c5_output_filters_witness :
    ∃ out, generate_talking_points minimalProfile "2026-03-01" = .ok out
      ∧ out.strengths_to_celebrate
          = (sortByPriority (allTalkingPoints "Ava" minimalProfile)).filter
              (fun p => decide (p.priority = .medium) && !p.action_required)
      ∧ out.action_items.length = out.meeting_summary.action_items := by
  obtain ⟨out, h1, h2, -, -, -, h6⟩ := c5_output_filters minimalProfile avaPersonal
    "Ava" "Li" "5" "2026-03-01" rfl rfl rfl rfl
  exact ⟨out, h1, h2, h6⟩

/-- Claim C6: the academic evaluator's first point classifies the GPA
against the grade's expectation row (grade missing defaults to `"5"`;
an unknown grade falls back to the grade-5 row): GPA at least
`gpa_excellent` gives the high-priority non-action excellent point,
else at least `gpa_good` the medium solid point, else the
high-priority action-required support point, the `supportingData`
carrying the GPA and the threshold compared against. -/
theorem c6_gpa_classification (fn : String) (sd : StudentProfile) :
    (∃ pt rest, analyze_academic_performance fn sd = pt :: rest
      ∧ pt.category = .academic
      ∧ (((expectationsFor ((sd.personalInfo.getD .empty).grade.getD "5")).gpa_excellent
              ≤ gpaOf sd
            ∧ pt.priority = .high ∧ pt.title = "Excellent Academic Performance"
            ∧ pt.action_required = false
            ∧ pt.supporting_data = [("gpa", .num (gpaOf sd)),
                ("expectation", .num (expectationsFor
                  ((sd.personalInfo.getD .empty).grade.getD "5")).gpa_excellent)])
          ∨ (gpaOf sd < (expectationsFor
                ((sd.personalInfo.getD .empty).grade.getD "5")).gpa_excellent
            ∧ (expectationsFor ((sd.personalInfo.getD .empty).grade.getD "5")).gpa_good
                ≤ gpaOf sd
            ∧ pt.priority = .medium ∧ pt.title = "Solid Academic Performance"
            ∧ pt.action_required = false
            ∧ pt.supporting_data = [("gpa", .num (gpaOf sd)),
                ("expectation", .num (expectationsFor
                  ((sd.personalInfo.getD .empty).grade.getD "5")).gpa_good)])
          ∨ (gpaOf sd < (expectationsFor
                ((sd.personalInfo.getD .empty).grade.getD "5")).gpa_good
            ∧ pt.priority = .high ∧ pt.title = "Academic Support Needed"
            ∧ pt.action_required = true
            ∧ pt.supporting_data = [("gpa", .num (gpaOf sd)),
                ("expectation", .num (expectationsFor
                  ((sd.personalInfo.getD .empty).grade.getD "5")).gpa_good)])))
    ∧ (∀ g : String, g ≠ "3" → g ≠ "4" → g ≠ "6" →
        expectationsFor g = gradeFiveExpectations) := by
  constructor
  · simp only [analyze_academic_performance, gpaOf]
    by_cases h1 : (expectationsFor ((sd.personalInfo.getD .empty).grade.getD "5")).gpa_excellent
        ≤ (sd.academicProfile.getD .empty).currentGPA.getD 0
    · rw [if_pos h1]
      exact ⟨_, _, rfl, rfl, .inl ⟨h1, rfl, rfl, rfl, rfl⟩⟩
    · by_cases h2 : (expectationsFor ((sd.personalInfo.getD .empty).grade.getD "5")).gpa_good
          ≤ (sd.academicProfile.getD .empty).currentGPA.getD 0
      · rw [if_neg h1, if_pos h2]
        exact ⟨_, _, rfl, rfl, .inr (.inl ⟨not_le.mp h1, h2, rfl, rfl, rfl, rfl⟩)⟩
      · rw [if_neg h1, if_neg h2]
        exact ⟨_, _, rfl, rfl, .inr (.inr ⟨not_le.mp h2, rfl, rfl, rfl, rfl⟩)⟩
  · intro g h3 h4 h6
    exact expectationsFor_default h3 h4 h6

/-- Claim C6, witness: the fallback row for the unknown grade `"7"`,
via the theorem at `strongProfile`. -/
theorem c6_gpa_classification_witness :
    expectationsFor "7" = gradeFiveExpectations :=
  (c6_gpa_classification "Ava" strongProfile).2 "7" (by decide) (by decide) (by decide)

/-- Claim C7: the behavioral evaluator emits the low-priority
excellent-attendance point exactly when the rate is at least 0.98, the
high-priority action-required attendance-concerns point exactly when
the rate is below 0.90 (nothing in between), and — independently — the
medium-priority action-required punctuality point exactly when the
tardy count exceeds 5. -/
theorem c7_attendance_tardiness (fn : String) (sd : StudentProfile) :
    ((analyze_behavioral_profile fn sd).filter
        (fun p => decide (p.title = "Excellent Attendance"))
      = if (0.98 : ℚ) ≤ attendanceRateOf sd then
          [{ category := .behavioral, priority := .low, title := "Excellent Attendance",
             content := fn ++ " has excellent attendance with "
               ++ fmtPct (attendanceRateOf sd) ++ " attendance rate.",
             supporting_data := [("attendance_rate", .num (attendanceRateOf sd)),
                                 ("tardy_count", .num (tardyCountOf sd))],
             action_required := false }]
        else [])
    ∧ ((analyze_behavioral_profile fn sd).filter
        (fun p => decide (p.title = "Attendance Concerns"))
      = if attendanceRateOf sd < (0.90 : ℚ) then
          [{ category := .behavioral, priority := .high, title := "Attendance Concerns",
             content := "Attendance needs attention: " ++ fmtPct (attendanceRateOf sd)
               ++ " rate. Regular attendance is crucial for academic success.",
             supporting_data := [("attendance_rate", .num (attendanceRateOf sd)),
                                 ("tardy_count", .num (tardyCountOf sd))],
             action_required := true }]
        else [])
    ∧ ((analyze_behavioral_profile fn sd).filter
        (fun p => decide (p.title = "Punctuality"))
      = if (5 : ℤ) < tardyCountOf sd then
          [{ category := .behavioral, priority := .medium, title := "Punctuality",
             content := fn ++ " has been tardy " ++ toString (tardyCountOf sd)
               ++ " times. Let's work together on morning routines.",
             supporting_data := [("tardy_count", .num (tardyCountOf sd))],
             action_required := true }]
        else []) := by
  unfold analyze_behavioral_profile attendanceRateOf tardyCountOf
  refine ⟨?_, ?_, ?_⟩ <;>
    · simp only [List.filter_append]
      split_ifs <;> first
        | rfl
        | (exfalso; linarith)

/-- Claim C9: the GPA-classification branches are exhaustive and
mutually exclusive, so the academic evaluator emits exactly one
GPA-classification point; a missing `currentGPA` defaults to 0 and
lands in the support-needed branch; hence every complete output has at
least one talking point and a non-empty academic bucket. -/
theorem c9_always_academic_point (sd : StudentProfile) (pinfo : PersonalInfo)
    (fn ln gr today : String)
    (hpi : sd.personalInfo = some pinfo) (hfn : pinfo.firstName = some fn)
    (hln : pinfo.lastName = some ln) (hgr : pinfo.grade = some gr) :
    (analyze_academic_performance fn sd).countP gpaTitleB = 1
    ∧ ((sd.academicProfile.getD .empty).currentGPA = none →
        ∃ rest, analyze_academic_performance fn sd
          = { category := .academic, priority := .high,
              title := "Academic Support Needed",
              content := fn ++ "'s GPA of " ++ fmtFixed 2 0
                ++ " indicates need for additional academic support.",
              supporting_data := [("gpa", .num 0),
                ("expectation", .num (expectationsFor
                  ((sd.personalInfo.getD .empty).grade.getD "5")).gpa_good)],
              action_required := true } :: rest)
    ∧ ∃ out, generate_talking_points sd today = .ok out
        ∧ 1 ≤ out.meeting_summary.total_talking_points
        ∧ out.talking_points_by_category.academic ≠ [] := by
  refine ⟨?_, ?_, ?_⟩
  · simp only [analyze_academic_performance]
    rw [List.countP_append, List.countP_append, List.countP_append]
    have hsub : ((((sd.academicProfile.getD .empty).subjects.getD []).flatMap
        subjectPoint).countP gpaTitleB) = 0 := by
      refine List.countP_eq_zero.mpr ?_
      intro a ha
      obtain ⟨x, -, hin⟩ := List.mem_flatMap.mp ha
      simp [subjectPoint_not_gpa x a hin]
    have hstr : ((if ((sd.academicProfile.getD .empty).strengths.getD []).isEmpty
        then ([] : List TalkingPoint) else
          [{ category := .academic, priority := .medium,
             title := "Academic Strengths",
             content := fn ++ " excels in: "
               ++ String.intercalate ", " ((sd.academicProfile.getD .empty).strengths.getD [])
               ++ ". We can leverage these strengths in challenging areas.",
             supporting_data := [("strengths",
               .strList ((sd.academicProfile.getD .empty).strengths.getD []))],
             action_required := false }]).countP gpaTitleB) = 0 := by
      split <;> rfl
    have hgpa : ((if (expectationsFor ((sd.personalInfo.getD .empty).grade.getD
          "5")).gpa_excellent ≤ (sd.academicProfile.getD .empty).currentGPA.getD 0 then
            [{ category := .academic, priority := .high,
               title := "Excellent Academic Performance",
               content := fn ++ " is performing exceptionally well with a GPA of "
                 ++ fmtFixed 2 ((sd.academicProfile.getD .empty).currentGPA.getD 0)
                 ++ ", which exceeds grade-level expectations.",
               supporting_data := [("gpa",
                   .num ((sd.academicProfile.getD .empty).currentGPA.getD 0)),
                 ("expectation", .num (expectationsFor
                   ((sd.personalInfo.getD .empty).grade.getD "5")).gpa_excellent)],
               action_required := false }]
          else if (expectationsFor ((sd.personalInfo.getD .empty).grade.getD
              "5")).gpa_good ≤ (sd.academicProfile.getD .empty).currentGPA.getD 0 then
            [{ category := .academic, priority := .medium,
               title := "Solid Academic Performance",
               content := fn ++ " maintains good academic standing with a GPA of "
                 ++ fmtFixed 2 ((sd.academicProfile.getD .empty).currentGPA.getD 0) ++ ".",
               supporting_data := [("gpa",
                   .num ((sd.academicProfile.getD .empty).currentGPA.getD 0)),
                 ("expectation", .num (expectationsFor
                   ((sd.personalInfo.getD .empty).grade.getD "5")).gpa_good)],
               action_required := false }]
          else
            [{ category := .academic, priority := .high,
               title := "Academic Support Needed",
               content := fn ++ "'s GPA of "
                 ++ fmtFixed 2 ((sd.academicProfile.getD .empty).currentGPA.getD 0)
                 ++ " indicates need for additional academic support.",
               supporting_data := [("gpa",
                   .num ((sd.academicProfile.getD .empty).currentGPA.getD 0)),
                 ("expectation", .num (expectationsFor
                   ((sd.personalInfo.getD .empty).grade.getD "5")).gpa_good)],
               action_required := true }]).countP gpaTitleB) = 1 := by
      split
      · rfl
      · split <;> rfl
    rw [hsub, hstr, hgpa]
    split <;> rfl
  · intro hnone
    simp only [analyze_academic_performance, hnone, Option.getD_none]
    obtain ⟨hgood, hexc⟩ := expectations_pos ((sd.personalInfo.getD .empty).grade.getD "5")
    rw [if_neg (not_le.mpr hexc), if_neg (not_le.mpr hgood)]
    exact ⟨_, rfl⟩
  · obtain ⟨pt, rest, heq, hcat, -⟩ := analyze_academic_cons fn sd
    refine ⟨_, generate_ok hpi hfn hln hgr today, ?_, ?_⟩
    · have htot : (generate_talking_points_core fn ln gr sd
          today).meeting_summary.total_talking_points
          = (sortByPriority (allTalkingPoints fn sd)).length := rfl
      rw [htot, (sortByPriority_perm _).length_eq]
      have hlen : (analyze_academic_performance fn sd).length ≤
          (allTalkingPoints fn sd).length := by
        simp [allTalkingPoints]
      rw [heq] at hlen
      simp at hlen
      omega
    · have hmem : pt ∈ allTalkingPoints fn sd := by
        simp [allTalkingPoints, heq]
      have hmem2 : pt ∈ sortByPriority (allTalkingPoints fn sd) :=
        (sortByPriority_perm _).mem_iff.mpr hmem
      have hacad : (generate_talking_points_core fn ln gr sd
          today).talking_points_by_category.academic
          = (sortByPriority (allTalkingPoints fn sd)).filter
              (fun p => decide (p.category = .academic)) := by
        simp only [generate_talking_points_core, categorize]
      rw [hacad]
      refine List.ne_nil_of_mem (List.mem_filter.mpr ⟨hmem2, ?_⟩)
      simp [hcat]

/-- Claim C9, witness at `minimalProfile` (whose `academicProfile` is
absent, exercising the GPA-defaults-to-0 branch as well). -/
theorem c9_always_academic_point_witness :
    (analyze_academic_performance "Ava" minimalProfile).countP gpaTitleB = 1
    ∧ ∃ out, generate_talking_points minimalProfile "2026-03-01" = .ok out
        ∧ 1 ≤ out.meeting_summary.total_talking_points
        ∧ out.talking_points_by_category.academic ≠ [] := by
  obtain ⟨h1, -, h3⟩ := c9_always_academic_point minimalProfile avaPersonal
    "Ava" "Li" "5" "2026-03-01" rfl rfl rfl rfl
  exact ⟨h1, h3⟩

/-- Claim C10: no evaluator ever produces a point that is both
priority-low and action-required. -/
theorem c10_low_never_action (fn : String) (sd : StudentProfile) (tp : TalkingPoint)
    (hmem : tp ∈ allTalkingPoints fn sd) (hlow : tp.priority = .low) :
    tp.action_required = false := by
  simp only [allTalkingPoints, List.mem_append] at hmem
  rcases hmem with ((((h | h) | h) | h) | h)
  · exact academic_low_nonaction fn sd tp h hlow
  · exact behavioral_low_nonaction fn sd tp h hlow
  · exact extracurricular_low_nonaction fn sd tp h hlow
  · exact parent_low_nonaction fn sd tp h hlow
  · exact goals_low_nonaction fn sd tp h hlow

/-- Claim C10, witness: the low-priority extracurricular-exploration
point of `minimalProfile` is not action-required. -/
theorem c10_low_never_action_witness :
    ({ category := .social, priority := .low, title := "Extracurricular Opportunities",
       content := "Consider encouraging " ++ "Ava"
         ++ " to explore extracurricular activities to develop new interests and skills.",
       supporting_data := [("total_activities", SDValue.num 0)],
       action_required := false } : TalkingPoint).action_required = false := by
  refine c10_low_never_action "Ava" minimalProfile _ ?_ rfl
  norm_num [allTalkingPoints, analyze_academic_performance, analyze_behavioral_profile,
    analyze_extracurricular_engagement, analyze_parent_engagement,
    analyze_goals_and_progress, minimalProfile, avaPersonal, expectationsFor_five,
    gradeFiveExpectations, AcademicProfile.empty, BehavioralProfile.empty, Attendance.empty,
    Participation.empty, SocialSkills.empty, Extracurricular.empty, ParentEngagement.empty,
    GoalsProfile.empty, TeacherNotes.empty, PersonalInfo.empty, sMedHigh, sMedLow, sGoodExc,
    sGoodNI, decide_True, decide_False]

end Sahayak
